import Mathlib

/-!
# Shallow embedding of `mchp_gpio_ctl`

Embeds `src/dongle_hal_revb.rs`, `src/dongle_hal_revc.rs` and the command
dispatch of `src/main.rs`.  Hardware registers are modelled as an explicit
state record; every HAL operation returns the new state together with the
list of register transfers (reads and writes) it issued, so that claims
about "zero write transfers" and frame conditions can be stated directly.
-/

/-- Modelled from the spec: the register access layer `usb4604_ral` is not in
the sources.  Per the spec's Chip Memory Map (§4.2), each GPIO bank has a
Direction, an Output and an Input register; the HAL uses the banks 0–7,
8–10 and 17–20.  One identifier per (bank, kind), named after the Rust
register types. -/
inductive RegId
  | Gpio0_7Dir
  | Gpio0_7Output
  | Gpio0_7Input
  | Gpio8_10Dir
  | Gpio8_10Output
  | Gpio8_10Input
  | Gpio17_20Dir
  | Gpio17_20Output
  | Gpio17_20Input
deriving DecidableEq, Repr

/-- Hardware register state: the value currently held by each register.
Registers are 8-bit; values are naturals, with bit positions 0–7. -/
structure Regs where
  gpio0_7Dir : Nat := 0
  gpio0_7Output : Nat := 0
  gpio0_7Input : Nat := 0
  gpio8_10Dir : Nat := 0
  gpio8_10Output : Nat := 0
  gpio8_10Input : Nat := 0
  gpio17_20Dir : Nat := 0
  gpio17_20Output : Nat := 0
  gpio17_20Input : Nat := 0
deriving DecidableEq, Repr

/-- A single register transfer on the wire: a read of a register or a write
of a value to a register. -/
inductive Transfer
  | read (r : RegId)
  | write (r : RegId) (v : Nat)
deriving DecidableEq, Repr

def isWriteTransfer : Transfer → Bool
  | Transfer.write _ _ => true
  | Transfer.read _ => false

/-- Number of write transfers in a trace. -/
def countWrites (t : List Transfer) : Nat := (t.filter isWriteTransfer).length

def getReg (s : Regs) : RegId → Nat
  | RegId.Gpio0_7Dir => s.gpio0_7Dir
  | RegId.Gpio0_7Output => s.gpio0_7Output
  | RegId.Gpio0_7Input => s.gpio0_7Input
  | RegId.Gpio8_10Dir => s.gpio8_10Dir
  | RegId.Gpio8_10Output => s.gpio8_10Output
  | RegId.Gpio8_10Input => s.gpio8_10Input
  | RegId.Gpio17_20Dir => s.gpio17_20Dir
  | RegId.Gpio17_20Output => s.gpio17_20Output
  | RegId.Gpio17_20Input => s.gpio17_20Input

def setRegVal (s : Regs) : RegId → Nat → Regs
  | RegId.Gpio0_7Dir, v => { s with gpio0_7Dir := v }
  | RegId.Gpio0_7Output, v => { s with gpio0_7Output := v }
  | RegId.Gpio0_7Input, v => { s with gpio0_7Input := v }
  | RegId.Gpio8_10Dir, v => { s with gpio8_10Dir := v }
  | RegId.Gpio8_10Output, v => { s with gpio8_10Output := v }
  | RegId.Gpio8_10Input, v => { s with gpio8_10Input := v }
  | RegId.Gpio17_20Dir, v => { s with gpio17_20Dir := v }
  | RegId.Gpio17_20Output, v => { s with gpio17_20Output := v }
  | RegId.Gpio17_20Input, v => { s with gpio17_20Input := v }

/-- Modelled from the spec: `read_register(addr) -> value` (§4.1) issues one
read exchange and returns the register's value.  Reading does not change
register state, so only the value and the trace are returned. -/
def read_reg (r : RegId) (s : Regs) : Nat × List Transfer :=
  (getReg s r, [Transfer.read r])

/-- Modelled from the spec: `modify_register(addr, transform)` (§4.1) reads
the register, applies a pure bit-level transform, and writes the result
back: one read transfer followed by one write transfer. -/
def modify_reg (r : RegId) (f : Nat → Nat) (s : Regs) : Regs × List Transfer :=
  (setRegVal s r (f (getReg s r)), [Transfer.read r, Transfer.write r (f (getReg s r))])

/-- Modelled from the spec: a bitfield setter of the register access layer
(`set_gpioN_out_en`, `set_gpioN_out`): sets bit `i` of the 8-bit value `v`
to `b` and leaves every other bit of the register unchanged. -/
def set_bit (v i : Nat) (b : Bool) : Nat :=
  if b then v ||| 2 ^ i else v &&& (255 ^^^ 2 ^ i)

/-- Modelled from the spec: bit positions of the named bitfields, with pin
`N` of a bank at bit `N - bank_base` (the spec fixes positions by the
datasheet; any injective per-bank assignment carries the claims). -/
def gpio0_bit : Nat := 0
def gpio1_bit : Nat := 1
def gpio3_bit : Nat := 3
def gpio8_bit : Nat := 0
def gpio9_bit : Nat := 1
def gpio10_bit : Nat := 2
def gpio19_bit : Nat := 2
def gpio20_bit : Nat := 3

/-! ## HAL for RevA/RevB boards (`src/dongle_hal_revb.rs`) -/

/-- `PcbRevision` from `src/dongle_hal_revb.rs`. -/
inductive PcbRevision
  | RevAorB
  | RevC
deriving DecidableEq, Repr

/-- `dev_power_ctl` from `src/dongle_hal_revb.rs`: set gpio0 direction to
output, then drive gpio0 output to the inverse of `pwr_on` (the power
switch is inverting). -/
def dev_power_ctl (s : Regs) (pwr_on : Bool) : Regs × List Transfer :=
  let r1 := modify_reg RegId.Gpio0_7Dir (fun dir => set_bit dir gpio0_bit true) s
  let r2 := modify_reg RegId.Gpio0_7Output (fun out => set_bit out gpio0_bit (!pwr_on)) r1.1
  (r2.1, r1.2 ++ r2.2)

/-- `is_dev_power_on` from `src/dongle_hal_revb.rs`: read the gpio0 output
bit and invert. -/
def is_dev_power_on (s : Regs) : Bool × List Transfer :=
  let r := read_reg RegId.Gpio0_7Output s
  (!(Nat.testBit r.1 gpio0_bit), r.2)

/-- `is_dev_pwr_fault` from `src/dongle_hal_revb.rs`: set gpio10 direction
to input, then read the gpio10 input bit and invert (fault is inverted).
Returns (new state, fault flag, trace). -/
def is_dev_pwr_fault (s : Regs) : Regs × Bool × List Transfer :=
  let r1 := modify_reg RegId.Gpio8_10Dir (fun dir => set_bit dir gpio10_bit false) s
  let r2 := read_reg RegId.Gpio8_10Input r1.1
  (r1.1, !(Nat.testBit r2.1 gpio10_bit), r1.2 ++ r2.2)

/-- `pcb_revision` from `src/dongle_hal_revb.rs`: read the gpio9 input bit;
true means RevC, false means RevAorB. -/
def pcb_revision (s : Regs) : PcbRevision × List Transfer :=
  let r := read_reg RegId.Gpio8_10Input s
  (if Nat.testBit r.1 gpio9_bit then PcbRevision.RevC else PcbRevision.RevAorB, r.2)

/-! ## HAL for RevC boards (`src/dongle_hal_revc.rs`) -/

/-- `HeaderPin` from `src/dongle_hal_revc.rs` (P0 = PIO19, P1 = PIO20). -/
inductive HeaderPin
  | P0
  | P1
deriving DecidableEq, Repr

/-- `SlgPin` from `src/dongle_hal_revc.rs` (SlgIo0 = PIO8, SlgIo1 = PIO3). -/
inductive SlgPin
  | SlgIo0
  | SlgIo1
deriving DecidableEq, Repr

/-- `PinMode` from `src/dongle_hal_revc.rs`. -/
inductive PinMode
  | Output
  | Input
deriving DecidableEq, Repr

/-- `PinState` from `src/dongle_hal_revc.rs`. -/
inductive PinState
  | High
  | Low
deriving DecidableEq, Repr

/-- Result of a guarded drive operation: the new register state, whether
the "Cannot set pin in input mode" refusal was reported, and the trace. -/
structure SetResult where
  regs : Regs
  modeMismatch : Bool
  trace : List Transfer
deriving DecidableEq, Repr

/-- `gpio_header_set_mode` from `src/dongle_hal_revc.rs`. -/
def gpio_header_set_mode (s : Regs) (pin : HeaderPin) (mode : PinMode) : Regs × List Transfer :=
  let out_en : Bool := mode = PinMode.Output
  match pin with
  | HeaderPin.P0 => modify_reg RegId.Gpio17_20Dir (fun r => set_bit r gpio19_bit out_en) s
  | HeaderPin.P1 => modify_reg RegId.Gpio17_20Dir (fun r => set_bit r gpio20_bit out_en) s

/-- `gpio_header_get_mode` from `src/dongle_hal_revc.rs`: read the pin's
direction bit (both arms read the `Gpio17_20Dir` register). -/
def gpio_header_get_mode (s : Regs) (pin : HeaderPin) : PinMode × List Transfer :=
  let rd := read_reg RegId.Gpio17_20Dir s
  let is_output : Bool :=
    match pin with
    | HeaderPin.P0 => Nat.testBit rd.1 gpio19_bit
    | HeaderPin.P1 => Nat.testBit rd.1 gpio20_bit
  (if is_output then PinMode.Output else PinMode.Input, rd.2)

/-- `gpio_header_set` from `src/dongle_hal_revc.rs`: refuse (with the
"Cannot set pin in input mode" message) unless the mode re-read from the
direction register is Output; otherwise drive the output bit. -/
def gpio_header_set (s : Regs) (pin : HeaderPin) (state : PinState) : SetResult :=
  let gm := gpio_header_get_mode s pin
  if gm.1 ≠ PinMode.Output then
    { regs := s, modeMismatch := true, trace := gm.2 }
  else
    let is_high : Bool := state = PinState.High
    let r :=
      match pin with
      | HeaderPin.P0 => modify_reg RegId.Gpio17_20Output (fun r => set_bit r gpio19_bit is_high) s
      | HeaderPin.P1 => modify_reg RegId.Gpio17_20Output (fun r => set_bit r gpio20_bit is_high) s
    { regs := r.1, modeMismatch := false, trace := gm.2 ++ r.2 }

/-- `gpio_header_get` from `src/dongle_hal_revc.rs`: read the Output
register's bit when the pin's mode is Output, the Input register's bit
when it is Input. -/
def gpio_header_get (s : Regs) (pin : HeaderPin) : PinState × List Transfer :=
  let gm := gpio_header_get_mode s pin
  let rd :=
    match pin, gm.1 with
    | HeaderPin.P0, PinMode.Output =>
        let r := read_reg RegId.Gpio17_20Output s
        (Nat.testBit r.1 gpio19_bit, r.2)
    | HeaderPin.P0, PinMode.Input =>
        let r := read_reg RegId.Gpio17_20Input s
        (Nat.testBit r.1 gpio19_bit, r.2)
    | HeaderPin.P1, PinMode.Output =>
        let r := read_reg RegId.Gpio17_20Output s
        (Nat.testBit r.1 gpio20_bit, r.2)
    | HeaderPin.P1, PinMode.Input =>
        let r := read_reg RegId.Gpio17_20Input s
        (Nat.testBit r.1 gpio20_bit, r.2)
  (if rd.1 then PinState.High else PinState.Low, gm.2 ++ rd.2)

/-- `slg_io_set_mode` from `src/dongle_hal_revc.rs`. -/
def slg_io_set_mode (s : Regs) (pin : SlgPin) (mode : PinMode) : Regs × List Transfer :=
  let out_en : Bool := mode = PinMode.Output
  match pin with
  | SlgPin.SlgIo0 => modify_reg RegId.Gpio8_10Dir (fun r => set_bit r gpio8_bit out_en) s
  | SlgPin.SlgIo1 => modify_reg RegId.Gpio0_7Dir (fun r => set_bit r gpio3_bit out_en) s

/-- `slg_io_get_mode` from `src/dongle_hal_revc.rs`. -/
def slg_io_get_mode (s : Regs) (pin : SlgPin) : PinMode × List Transfer :=
  let rd :=
    match pin with
    | SlgPin.SlgIo0 =>
        let r := read_reg RegId.Gpio8_10Dir s
        (Nat.testBit r.1 gpio8_bit, r.2)
    | SlgPin.SlgIo1 =>
        let r := read_reg RegId.Gpio0_7Dir s
        (Nat.testBit r.1 gpio3_bit, r.2)
  (if rd.1 then PinMode.Output else PinMode.Input, rd.2)

/-- `slg_io_set` from `src/dongle_hal_revc.rs`: refuse unless the mode
re-read from the direction register is Output; otherwise drive. -/
def slg_io_set (s : Regs) (pin : SlgPin) (state : PinState) : SetResult :=
  let gm := slg_io_get_mode s pin
  if gm.1 ≠ PinMode.Output then
    { regs := s, modeMismatch := true, trace := gm.2 }
  else
    let is_high : Bool := state = PinState.High
    let r :=
      match pin with
      | SlgPin.SlgIo0 => modify_reg RegId.Gpio8_10Output (fun r => set_bit r gpio8_bit is_high) s
      | SlgPin.SlgIo1 => modify_reg RegId.Gpio0_7Output (fun r => set_bit r gpio3_bit is_high) s
    { regs := r.1, modeMismatch := false, trace := gm.2 ++ r.2 }

/-- `slg_io_get` from `src/dongle_hal_revc.rs`. -/
def slg_io_get (s : Regs) (pin : SlgPin) : PinState × List Transfer :=
  let gm := slg_io_get_mode s pin
  let rd :=
    match pin, gm.1 with
    | SlgPin.SlgIo0, PinMode.Output =>
        let r := read_reg RegId.Gpio8_10Output s
        (Nat.testBit r.1 gpio8_bit, r.2)
    | SlgPin.SlgIo0, PinMode.Input =>
        let r := read_reg RegId.Gpio8_10Input s
        (Nat.testBit r.1 gpio8_bit, r.2)
    | SlgPin.SlgIo1, PinMode.Output =>
        let r := read_reg RegId.Gpio0_7Output s
        (Nat.testBit r.1 gpio3_bit, r.2)
    | SlgPin.SlgIo1, PinMode.Input =>
        let r := read_reg RegId.Gpio0_7Input s
        (Nat.testBit r.1 gpio3_bit, r.2)
  (if rd.1 then PinState.High else PinState.Low, gm.2 ++ rd.2)

/-- `usb_switch_configure` from `src/dongle_hal_revc.rs`. -/
def usb_switch_configure (s : Regs) : Regs × List Transfer :=
  modify_reg RegId.Gpio0_7Dir (fun r => set_bit r gpio1_bit true) s

/-- `usb_switch_set` from `src/dongle_hal_revc.rs`: drive gpio1 output to
the inverse of `is_connected` (0 means connected).  Note: no mode check. -/
def usb_switch_set (s : Regs) (is_connected : Bool) : Regs × List Transfer :=
  modify_reg RegId.Gpio0_7Output (fun r => set_bit r gpio1_bit (!is_connected)) s

/-- `usb_switch_is_connected` from `src/dongle_hal_revc.rs`: branches on
the gpio1 *input-register* bit; in the first branch re-reads the input bit
and inverts, in the second reads the output bit and inverts. -/
def usb_switch_is_connected (s : Regs) : Bool × List Transfer :=
  let r1 := read_reg RegId.Gpio0_7Input s
  let is_input := Nat.testBit r1.1 gpio1_bit
  if is_input then
    let r2 := read_reg RegId.Gpio0_7Input s
    (!(Nat.testBit r2.1 gpio1_bit), r1.2 ++ r2.2)
  else
    let r3 := read_reg RegId.Gpio0_7Output s
    (!(Nat.testBit r3.1 gpio1_bit), r1.2 ++ r3.2)

/-! ## Command dispatch (`src/main.rs`) -/

/-- `Commands` from `src/main.rs`. -/
inductive Commands
  | On
  | Off
  | Status
  | List
  | Sdp
  | ForceSdp
  | ReleaseSdp
  | Detach
  | Attach
  | FullDetach
  | FullAttach
  | GpioConfig (pin : HeaderPin) (mode : PinMode)
  | GpioSet (pin : HeaderPin) (state : PinState)
  | GpioGet (pin : HeaderPin)
  | Udev
deriving DecidableEq, Repr

/-- The commands that `src/main.rs` gates behind the RevC check: USB switch
attach/detach (plain and full), forced-SDP operations, and the header-pin
operations. -/
def isRevCOnly : Commands → Bool
  | Commands.Sdp | Commands.ForceSdp | Commands.ReleaseSdp => true
  | Commands.Attach | Commands.Detach => true
  | Commands.FullAttach | Commands.FullDetach => true
  | Commands.GpioConfig _ _ | Commands.GpioSet _ _ | Commands.GpioGet _ => true
  | _ => false

/-- The `match &cli.command` dispatch of `src/main.rs`, after the initial
status reads (`is_dev_power_on`, `is_dev_pwr_fault`) and `pcb_revision`
have produced `is_pwr_on` and `rev`.  Returns the register state after the
command, the transfers the command itself issued, and whether a
"not supported on PCB RevA or B" refusal was reported. -/
def dispatch (cmd : Commands) (rev : PcbRevision) (is_pwr_on is_relay_variant : Bool)
    (s : Regs) : Regs × List Transfer × Bool :=
  match cmd with
  | Commands.On =>
      if is_pwr_on then (s, [], false)
      else
        let r := dev_power_ctl s true
        (r.1, r.2, false)
  | Commands.Off =>
      if is_pwr_on then
        let r := dev_power_ctl s false
        (r.1, r.2, false)
      else (s, [], false)
  | Commands.Status =>
      if rev = PcbRevision.RevC then
        let u := usb_switch_is_connected s
        let g0 := slg_io_get s SlgPin.SlgIo0
        let g1 := slg_io_get s SlgPin.SlgIo1
        let tp0 :=
          if is_relay_variant then
            let m := gpio_header_get_mode s HeaderPin.P0
            if m.1 = PinMode.Input then m.2
            else m.2 ++ (gpio_header_get s HeaderPin.P0).2
          else
            (gpio_header_get_mode s HeaderPin.P0).2 ++ (gpio_header_get s HeaderPin.P0).2
        let tp1 :=
          (gpio_header_get_mode s HeaderPin.P1).2 ++ (gpio_header_get s HeaderPin.P1).2
        (s, u.2 ++ g0.2 ++ g1.2 ++ tp0 ++ tp1, false)
      else (s, [], false)
  | Commands.List => (s, [], false)
  | Commands.Udev => (s, [], false)
  | Commands.ForceSdp =>
      if rev = PcbRevision.RevAorB then (s, [], true)
      else
        let m := slg_io_set_mode s SlgPin.SlgIo0 PinMode.Output
        let r := slg_io_set m.1 SlgPin.SlgIo0 PinState.High
        (r.regs, m.2 ++ r.trace, false)
  | Commands.ReleaseSdp =>
      if rev = PcbRevision.RevAorB then (s, [], true)
      else
        let m := slg_io_set_mode s SlgPin.SlgIo0 PinMode.Output
        let r := slg_io_set m.1 SlgPin.SlgIo0 PinState.Low
        (r.regs, m.2 ++ r.trace, false)
  | Commands.Sdp =>
      if rev = PcbRevision.RevAorB then (s, [], true)
      else
        let m := slg_io_set_mode s SlgPin.SlgIo0 PinMode.Output
        let r1 := slg_io_set m.1 SlgPin.SlgIo0 PinState.High
        let r2 := slg_io_set r1.regs SlgPin.SlgIo0 PinState.Low
        (r2.regs, m.2 ++ r1.trace ++ r2.trace, false)
  | Commands.Attach =>
      if rev = PcbRevision.RevAorB then (s, [], true)
      else
        let c := usb_switch_configure s
        let r := usb_switch_set c.1 true
        (r.1, c.2 ++ r.2, false)
  | Commands.Detach =>
      if rev = PcbRevision.RevAorB then (s, [], true)
      else
        let c := usb_switch_configure s
        let r := usb_switch_set c.1 false
        (r.1, c.2 ++ r.2, false)
  | Commands.FullAttach =>
      if rev = PcbRevision.RevAorB then (s, [], true)
      else
        let c := usb_switch_configure s
        let m := slg_io_set_mode c.1 SlgPin.SlgIo1 PinMode.Output
        let p := dev_power_ctl m.1 true
        let u := usb_switch_set p.1 true
        let g := slg_io_set u.1 SlgPin.SlgIo1 PinState.High
        (g.regs, c.2 ++ m.2 ++ p.2 ++ u.2 ++ g.trace, false)
  | Commands.FullDetach =>
      if rev = PcbRevision.RevAorB then (s, [], true)
      else
        let c := usb_switch_configure s
        let m := slg_io_set_mode c.1 SlgPin.SlgIo1 PinMode.Output
        let p := dev_power_ctl m.1 false
        let u := usb_switch_set p.1 false
        let g := slg_io_set u.1 SlgPin.SlgIo1 PinState.Low
        (g.regs, c.2 ++ m.2 ++ p.2 ++ u.2 ++ g.trace, false)
  | Commands.GpioConfig pin mode =>
      if rev = PcbRevision.RevAorB then (s, [], true)
      else
        let r := gpio_header_set_mode s pin mode
        (r.1, r.2, false)
  | Commands.GpioSet pin state =>
      if rev = PcbRevision.RevAorB then (s, [], true)
      else
        let r := gpio_header_set s pin state
        (r.regs, r.trace, false)
  | Commands.GpioGet pin =>
      if rev = PcbRevision.RevAorB then (s, [], true)
      else
        let r := gpio_header_get s pin
        (s, r.2, false)

/-- All-zero register state (every direction bit is input). -/
def regs0 : Regs := {}

/-! ## Helper lemmas about `set_bit` -/

theorem testBit_255_lt (j : Nat) (hj : j < 8) : Nat.testBit 255 j = true := by
  interval_cases j <;> decide

theorem testBit_set_bit_self (v i : Nat) (b : Bool) (hi : i < 8) :
    Nat.testBit (set_bit v i b) i = b := by
  cases b with
  | true => simp [set_bit, Nat.testBit_lor, Nat.testBit_two_pow]
  | false =>
    simp [set_bit, Nat.testBit_land, Nat.testBit_xor, Nat.testBit_two_pow,
      testBit_255_lt i hi]

theorem testBit_set_bit_other (v i j : Nat) (b : Bool) (hij : j ≠ i) (hj : j < 8) :
    Nat.testBit (set_bit v i b) j = Nat.testBit v j := by
  cases b with
  | true => simp [set_bit, Nat.testBit_lor, Nat.testBit_two_pow, Ne.symm hij]
  | false =>
    simp [set_bit, Nat.testBit_land, Nat.testBit_xor, Nat.testBit_two_pow,
      testBit_255_lt j hj, Ne.symm hij]

/-! ## Claims -/

/-- C2: for every initial value of the `Gpio17_20Dir` register,
`gpio_header_set_mode P0 Output` sets the gpio19 output-enable bit to 1,
leaves every other bit of that register unchanged, and starting from 0x00
the resulting register value has only that bit set. -/
theorem gpio_header_set_mode_p0_frame (s : Regs) (j : Nat) (hj : j ≠ gpio19_bit) :
    Nat.testBit (gpio_header_set_mode s HeaderPin.P0 PinMode.Output).1.gpio17_20Dir gpio19_bit
      = true
    ∧ Nat.testBit (gpio_header_set_mode s HeaderPin.P0 PinMode.Output).1.gpio17_20Dir j
      = Nat.testBit s.gpio17_20Dir j
    ∧ (s.gpio17_20Dir = 0 →
        (gpio_header_set_mode s HeaderPin.P0 PinMode.Output).1.gpio17_20Dir = 2 ^ gpio19_bit) := by
  refine ⟨?_, ?_, fun h0 => ?_⟩
  · simp [gpio_header_set_mode, modify_reg, setRegVal, getReg, set_bit,
      Nat.testBit_lor, Nat.testBit_two_pow]
  · simp [gpio_header_set_mode, modify_reg, setRegVal, getReg, set_bit,
      Nat.testBit_lor, Nat.testBit_two_pow, Ne.symm hj]
  · simp [gpio_header_set_mode, modify_reg, setRegVal, getReg, set_bit, h0]

theorem gpio_header_set_mode_p0_frame_witness :
    (0 : Nat) ≠ gpio19_bit
    ∧ (Nat.testBit (gpio_header_set_mode regs0 HeaderPin.P0 PinMode.Output).1.gpio17_20Dir
        gpio19_bit = true
      ∧ Nat.testBit (gpio_header_set_mode regs0 HeaderPin.P0 PinMode.Output).1.gpio17_20Dir 0
        = Nat.testBit regs0.gpio17_20Dir 0
      ∧ (regs0.gpio17_20Dir = 0 →
          (gpio_header_set_mode regs0 HeaderPin.P0 PinMode.Output).1.gpio17_20Dir
            = 2 ^ gpio19_bit)) :=
  ⟨by decide, gpio_header_set_mode_p0_frame regs0 0 (by decide)⟩

/-- C3: polarity inversion on drive: `dev_power_ctl true` leaves the gpio0
output bit 0 and `usb_switch_set true` leaves the gpio1 output bit 0;
with argument false the respective bit is 1. -/
theorem drive_polarity_inverted (s : Regs) :
    Nat.testBit (dev_power_ctl s true).1.gpio0_7Output gpio0_bit = false
    ∧ Nat.testBit (dev_power_ctl s false).1.gpio0_7Output gpio0_bit = true
    ∧ Nat.testBit (usb_switch_set s true).1.gpio0_7Output gpio1_bit = false
    ∧ Nat.testBit (usb_switch_set s false).1.gpio0_7Output gpio1_bit = true := by
  refine ⟨?_, ?_, ?_, ?_⟩ <;>
  · simp only [dev_power_ctl, usb_switch_set, modify_reg, setRegVal, getReg]
    rw [testBit_set_bit_self] <;> decide

/-- C4: power-control round trip: for every boolean `b` and every initial
register state, `dev_power_ctl b` followed by `is_dev_power_on` returns
`b`. -/
theorem power_control_round_trip (s : Regs) (b : Bool) :
    (is_dev_power_on (dev_power_ctl s b).1).1 = b := by
  simp only [is_dev_power_on, dev_power_ctl, read_reg, modify_reg, setRegVal, getReg]
  rw [testBit_set_bit_self _ _ _ (by decide)]
  simp

/-- C1 counterexample: at the all-zero register state the USB switch pin's
direction bit is 0 (mode Input), yet `usb_switch_set` issues a write
transfer — it performs no mode check — contradicting the claim that every
drive operation on a non-Output pin issues zero write transfers. -/
theorem usb_switch_set_unguarded_cex :
    Nat.testBit regs0.gpio0_7Dir gpio1_bit = false
    ∧ countWrites (usb_switch_set regs0 true).2 = 1 := by decide

/-- C1 (amended): `gpio_header_set` and `slg_io_set` enforce the mode
guard — when the mode re-read from the Direction register is not Output
they issue zero write transfers, leave the registers unchanged and report
the mismatch — while `usb_switch_set` always issues exactly one write
transfer, with no mode check and no mismatch report. -/
theorem mode_guard_amended (s : Regs) (hp : HeaderPin) (sp : SlgPin)
    (st1 st2 : PinState) (b : Bool)
    (h1 : (gpio_header_get_mode s hp).1 ≠ PinMode.Output)
    (h2 : (slg_io_get_mode s sp).1 ≠ PinMode.Output) :
    countWrites (gpio_header_set s hp st1).trace = 0
    ∧ (gpio_header_set s hp st1).modeMismatch = true
    ∧ (gpio_header_set s hp st1).regs = s
    ∧ countWrites (slg_io_set s sp st2).trace = 0
    ∧ (slg_io_set s sp st2).modeMismatch = true
    ∧ (slg_io_set s sp st2).regs = s
    ∧ countWrites (usb_switch_set s b).2 = 1 := by
  have hg : gpio_header_set s hp st1 =
      { regs := s, modeMismatch := true, trace := (gpio_header_get_mode s hp).2 } := by
    simp [gpio_header_set, h1]
  have hs : slg_io_set s sp st2 =
      { regs := s, modeMismatch := true, trace := (slg_io_get_mode s sp).2 } := by
    simp [slg_io_set, h2]
  cases sp <;>
    simp_all [usb_switch_set, modify_reg, countWrites, isWriteTransfer,
      gpio_header_get_mode, slg_io_get_mode, read_reg]

theorem mode_guard_amended_witness :
    ((gpio_header_get_mode regs0 HeaderPin.P0).1 ≠ PinMode.Output
      ∧ (slg_io_get_mode regs0 SlgPin.SlgIo0).1 ≠ PinMode.Output)
    ∧ (countWrites (gpio_header_set regs0 HeaderPin.P0 PinState.High).trace = 0
      ∧ (gpio_header_set regs0 HeaderPin.P0 PinState.High).modeMismatch = true
      ∧ (gpio_header_set regs0 HeaderPin.P0 PinState.High).regs = regs0
      ∧ countWrites (slg_io_set regs0 SlgPin.SlgIo0 PinState.High).trace = 0
      ∧ (slg_io_set regs0 SlgPin.SlgIo0 PinState.High).modeMismatch = true
      ∧ (slg_io_set regs0 SlgPin.SlgIo0 PinState.High).regs = regs0
      ∧ countWrites (usb_switch_set regs0 true).2 = 1) :=
  ⟨⟨by decide, by decide⟩,
    mode_guard_amended regs0 HeaderPin.P0 SlgPin.SlgIo0 PinState.High PinState.High true
      (by decide) (by decide)⟩

/-- A register state in which the gpio1 Direction bit says Output, the
driven gpio1 Output bit is 0 (switch connected, polarity inverted), while
the gpio1 Input-register bit happens to read 1. -/
def bugState : Regs := { gpio0_7Dir := 2, gpio0_7Output := 0, gpio0_7Input := 2 }

/-- C5 (code bug): in `bugState` the gpio1 Direction bit is Output and the
Output bit is 0, i.e. the switch is driven connected — yet
`usb_switch_is_connected` branches on the gpio1 *Input*-register bit,
takes the input branch and returns false: it decides the pin's mode from
the Input register value rather than from the Direction register bit. -/
theorem usb_switch_is_connected_wrong_mode_source :
    Nat.testBit bugState.gpio0_7Dir gpio1_bit = true
    ∧ (!(Nat.testBit bugState.gpio0_7Output gpio1_bit)) = true
    ∧ (usb_switch_is_connected bugState).1 = false := by decide

/-- C6: on a session whose detected revision is RevAorB, every RevC-only
command (SDP forcing, USB-switch attach/detach, full attach/detach, and
the header-pin operations) is refused with the unsupported-on-revision
report, issues no register transfer of its own, and leaves the register
state unchanged. -/
theorem revc_only_refused_on_revaorb (cmd : Commands) (is_pwr_on is_relay_variant : Bool)
    (s : Regs) (h : isRevCOnly cmd = true) :
    dispatch cmd PcbRevision.RevAorB is_pwr_on is_relay_variant s = (s, [], true) := by
  cases cmd <;> simp_all [dispatch, isRevCOnly]

theorem revc_only_refused_on_revaorb_witness :
    isRevCOnly Commands.Attach = true
    ∧ dispatch Commands.Attach PcbRevision.RevAorB false false regs0 = (regs0, [], true) :=
  ⟨by decide, revc_only_refused_on_revaorb Commands.Attach false false regs0 (by decide)⟩

/-- C7: `pcb_revision` issues exactly one read transfer (of the register
holding the gpio9 sense bit) and no write transfer, and returns RevC
exactly when that bit is set; being a pure function of the register state,
repeated calls on unchanged hardware state return the same revision. -/
theorem pcb_revision_single_read (s : Regs) :
    (pcb_revision s).2 = [Transfer.read RegId.Gpio8_10Input]
    ∧ countWrites (pcb_revision s).2 = 0
    ∧ ((pcb_revision s).1 = PcbRevision.RevC ↔ Nat.testBit s.gpio8_10Input gpio9_bit = true) := by
  refine ⟨rfl, rfl, ?_⟩
  by_cases h : Nat.testBit s.gpio8_10Input gpio9_bit <;>
    simp [pcb_revision, read_reg, getReg, h]

/-- C8: `is_dev_pwr_fault` first clears the gpio10 output-enable bit of
the direction register, leaving every other bit of that register
unchanged, then reads the input register and returns the negation of the
gpio10 input bit (active-low fault); its trace is the direction
read-modify-write followed by the input read. -/
theorem is_dev_pwr_fault_spec (s : Regs) (j : Nat) (hj : j ≠ gpio10_bit) (hj8 : j < 8) :
    Nat.testBit (is_dev_pwr_fault s).1.gpio8_10Dir gpio10_bit = false
    ∧ Nat.testBit (is_dev_pwr_fault s).1.gpio8_10Dir j = Nat.testBit s.gpio8_10Dir j
    ∧ (is_dev_pwr_fault s).2.1 = !(Nat.testBit s.gpio8_10Input gpio10_bit)
    ∧ (is_dev_pwr_fault s).2.2 =
        [Transfer.read RegId.Gpio8_10Dir,
         Transfer.write RegId.Gpio8_10Dir (set_bit s.gpio8_10Dir gpio10_bit false),
         Transfer.read RegId.Gpio8_10Input] := by
  refine ⟨?_, ?_, rfl, rfl⟩
  · simp only [is_dev_pwr_fault, modify_reg, setRegVal, getReg]
    rw [testBit_set_bit_self]
    decide
  · simp only [is_dev_pwr_fault, modify_reg, setRegVal, getReg]
    exact testBit_set_bit_other _ _ _ _ hj hj8

theorem is_dev_pwr_fault_spec_witness :
    ((0 : Nat) ≠ gpio10_bit ∧ (0 : Nat) < 8)
    ∧ (Nat.testBit (is_dev_pwr_fault regs0).1.gpio8_10Dir gpio10_bit = false
      ∧ Nat.testBit (is_dev_pwr_fault regs0).1.gpio8_10Dir 0
        = Nat.testBit regs0.gpio8_10Dir 0
      ∧ (is_dev_pwr_fault regs0).2.1 = !(Nat.testBit regs0.gpio8_10Input gpio10_bit)
      ∧ (is_dev_pwr_fault regs0).2.2 =
          [Transfer.read RegId.Gpio8_10Dir,
           Transfer.write RegId.Gpio8_10Dir (set_bit regs0.gpio8_10Dir gpio10_bit false),
           Transfer.read RegId.Gpio8_10Input]) :=
  ⟨⟨by decide, by decide⟩, is_dev_pwr_fault_spec regs0 0 (by decide) (by decide)⟩

/-- The Output-register bit a header pin drives (P0 = gpio19, P1 = gpio20). -/
def header_out_bit (s : Regs) : HeaderPin → Bool
  | HeaderPin.P0 => Nat.testBit s.gpio17_20Output gpio19_bit
  | HeaderPin.P1 => Nat.testBit s.gpio17_20Output gpio20_bit

/-- The Input-register bit a header pin senses. -/
def header_in_bit (s : Regs) : HeaderPin → Bool
  | HeaderPin.P0 => Nat.testBit s.gpio17_20Input gpio19_bit
  | HeaderPin.P1 => Nat.testBit s.gpio17_20Input gpio20_bit

/-- The Output-register bit an SLG pin drives (SlgIo0 = gpio8, SlgIo1 = gpio3). -/
def slg_out_bit (s : Regs) : SlgPin → Bool
  | SlgPin.SlgIo0 => Nat.testBit s.gpio8_10Output gpio8_bit
  | SlgPin.SlgIo1 => Nat.testBit s.gpio0_7Output gpio3_bit

/-- The Input-register bit an SLG pin senses. -/
def slg_in_bit (s : Regs) : SlgPin → Bool
  | SlgPin.SlgIo0 => Nat.testBit s.gpio8_10Input gpio8_bit
  | SlgPin.SlgIo1 => Nat.testBit s.gpio0_7Input gpio3_bit

set_option maxHeartbeats 1600000 in
/-- C9: `gpio_header_get` and `slg_io_get` return the pin's level from the
Output register when the pin's current mode is Output and from the Input
register when it is Input — a get on an output pin reports the driven
level, not the externally sensed one. -/
theorem pin_get_register_source (s : Regs) (hp : HeaderPin) (sp : SlgPin) :
    (gpio_header_get s hp).1
      = (if (if (gpio_header_get_mode s hp).1 = PinMode.Output
              then header_out_bit s hp else header_in_bit s hp)
         then PinState.High else PinState.Low)
    ∧ (slg_io_get s sp).1
      = (if (if (slg_io_get_mode s sp).1 = PinMode.Output
              then slg_out_bit s sp else slg_in_bit s sp)
         then PinState.High else PinState.Low) := by
  constructor
  · cases hp with
    | P0 =>
        have hm : gpio_header_get_mode s HeaderPin.P0
            = (if Nat.testBit s.gpio17_20Dir gpio19_bit then PinMode.Output
               else PinMode.Input, [Transfer.read RegId.Gpio17_20Dir]) := rfl
        by_cases hdir : Nat.testBit s.gpio17_20Dir gpio19_bit <;>
          simp [gpio_header_get, hm, hdir, read_reg, getReg, header_out_bit, header_in_bit]
    | P1 =>
        have hm : gpio_header_get_mode s HeaderPin.P1
            = (if Nat.testBit s.gpio17_20Dir gpio20_bit then PinMode.Output
               else PinMode.Input, [Transfer.read RegId.Gpio17_20Dir]) := rfl
        by_cases hdir : Nat.testBit s.gpio17_20Dir gpio20_bit <;>
          simp [gpio_header_get, hm, hdir, read_reg, getReg, header_out_bit, header_in_bit]
  · cases sp with
    | SlgIo0 =>
        have hm : slg_io_get_mode s SlgPin.SlgIo0
            = (if Nat.testBit s.gpio8_10Dir gpio8_bit then PinMode.Output
               else PinMode.Input, [Transfer.read RegId.Gpio8_10Dir]) := rfl
        by_cases hdir : Nat.testBit s.gpio8_10Dir gpio8_bit <;>
          simp [slg_io_get, hm, hdir, read_reg, getReg, slg_out_bit, slg_in_bit]
    | SlgIo1 =>
        have hm : slg_io_get_mode s SlgPin.SlgIo1
            = (if Nat.testBit s.gpio0_7Dir gpio3_bit then PinMode.Output
               else PinMode.Input, [Transfer.read RegId.Gpio0_7Dir]) := rfl
        by_cases hdir : Nat.testBit s.gpio0_7Dir gpio3_bit <;>
          simp [slg_io_get, hm, hdir, read_reg, getReg, slg_out_bit, slg_in_bit]

/-- C10: the guarded drives never touch any Direction register: after
`gpio_header_set` or `slg_io_set`, for every pin and requested state and
whether the drive was performed or refused, each of the three direction
registers equals its value before the call. -/
theorem set_preserves_directions (s : Regs) (hp : HeaderPin) (sp : SlgPin)
    (st1 st2 : PinState) :
    ((gpio_header_set s hp st1).regs.gpio0_7Dir = s.gpio0_7Dir
      ∧ (gpio_header_set s hp st1).regs.gpio8_10Dir = s.gpio8_10Dir
      ∧ (gpio_header_set s hp st1).regs.gpio17_20Dir = s.gpio17_20Dir)
    ∧ ((slg_io_set s sp st2).regs.gpio0_7Dir = s.gpio0_7Dir
      ∧ (slg_io_set s sp st2).regs.gpio8_10Dir = s.gpio8_10Dir
      ∧ (slg_io_set s sp st2).regs.gpio17_20Dir = s.gpio17_20Dir) := by
  constructor
  · cases hp <;>
    · simp only [gpio_header_set]
      split <;> simp [modify_reg, setRegVal, getReg]
  · cases sp <;>
    · simp only [slg_io_set]
      split <;> simp [modify_reg, setRegVal, getReg]
